import Mathlib

/-!
Verification development for the partner-consignment-bot service.

The definitions below are a shallow embedding of the JavaScript source:
  * src/lib/discord.js  (gateway revision): round2, displayYourPrice,
    the confirm/offer price decision in sendOfferMessageGateway, the
    click-token encoding in the button custom_id, and the decoding in
    onButtonInteraction;
  * src/lib/airtable.js : listOfferMessagesForOrder, createSaleAndDecrement;
  * src/server.js       : the POST /offers fan-out loop and the
    onButtonInteraction confirm/deny handler.

JavaScript numbers are modelled as rationals (ℚ); `null` inputs are
modelled as `Option.none`; NaN results of `Number(...)` are modelled as
`Option.none` in an `Option ℚ`.  Record fields that can be absent are
`Option` valued.  External I/O (Airtable, Discord) is modelled as explicit
state passing plus an environment oracle that says which best-effort side
effects fail.
-/

/-- The JavaScript `Number.EPSILON` constant, as an exact rational: 2 ^ (-52). -/
def jsEps : ℚ := 1 / 2 ^ 52

/-- JavaScript `Math.round`: round half toward positive infinity,
`Math.round x = ⌊x + 1/2⌋`. -/
def jsMathRound (x : ℚ) : ℤ := Int.floor (x + 1 / 2)

/-- Function `round2` of src/lib/discord.js line 245 and src/lib/airtable.js line 53:
`(n) => Math.round((Number(n) + Number.EPSILON) * 100) / 100`. -/
def round2 (n : ℚ) : ℚ := (jsMathRound ((n + jsEps) * 100) : ℚ) / 100

/-- On an amount that is an exact number of cents, `round2` is the
identity: the added epsilon plus one half never reaches the next cent. -/
theorem round2_cents (a : ℤ) : round2 ((a : ℚ) / 100) = (a : ℚ) / 100 := by
  unfold round2 jsMathRound jsEps
  have h1 : ((a : ℚ) / 100 + 1 / 2 ^ 52) * 100 + 1 / 2
      = (a : ℚ) + (100 / 2 ^ 52 + 1 / 2) := by ring
  rw [h1]
  have h2 : Int.floor ((a : ℚ) + (100 / 2 ^ 52 + 1 / 2)) = a := by
    rw [add_comm, Int.floor_add_int]
    have h3 : Int.floor ((100 : ℚ) / 2 ^ 52 + 1 / 2) = 0 := by
      apply Int.floor_eq_zero_iff.mpr
      constructor <;> norm_num
    omega
  rw [h2]

/-- Coercion used where the source applies arithmetic to a value that may
be `null`: JavaScript `Number(null) = 0`, `Number(x) = x` for a number. -/
def jsNumOrZero : Option ℚ → ℚ
  | none => 0
  | some q => q

/-- Whether the character list `pat` occurs as a prefix of `l`
(character-by-character equality). -/
def charsPrefixEq : List Char → List Char → Bool
  | [], _ => true
  | _ :: _, [] => false
  | a :: as, b :: bs => a == b && charsPrefixEq as bs

/-- Whether `pat` occurs as a contiguous substring of `l`; this models the
JavaScript `String.prototype.includes`. -/
def charsContains : List Char → List Char → Bool
  | [], pat => charsPrefixEq pat []
  | a :: t, pat => charsPrefixEq pat (a :: t) || charsContains t pat

/-- JavaScript `haystack.includes(needle)` on strings. -/
def strIncludes (haystack needle : String) : Bool :=
  charsContains haystack.data needle.data

/-- JavaScript `toUpperCase` on the ASCII strings this system handles,
character by character. -/
def jsToUpper (s : String) : String := String.mk (s.data.map Char.toUpper)

/-- JavaScript `toLowerCase` on the ASCII strings this system handles,
character by character. -/
def jsToLower (s : String) : String := String.mk (s.data.map Char.toLower)

/-- Function `isNL` of src/lib/discord.js line 246:
`(s) => String(s || "").toLowerCase().includes("nether")`. -/
def isNL (s : String) : Bool := strIncludes (jsToLower s) "nether"

/-- Function `displayYourPrice` of src/lib/discord.js lines 258-266: the figure
shown to the seller as the "Your Price" line.  A zero-rated (VAT0) seller
located in the Netherlands sees the ask grossed up by the seller VAT rate
(falling back to 21 when the rate is absent or not positive); everyone
else sees the plain ask.  All outputs pass through `round2`. -/
def displayYourPrice (suggested : ℚ) (vatType sellerCountry : String)
    (sellerVatRatePct : Option ℚ) : ℚ :=
  let vt := jsToUpper vatType
  if strIncludes vt "VAT0" && isNL sellerCountry then
    let pct : ℚ :=
      match sellerVatRatePct with
      | some r => if 0 < r then r else 21
      | none => 21
    round2 (suggested * (1 + pct / 100))
  else round2 suggested

/-- The decision record produced by `sendOfferMessageGateway`:
whether the message is a confirmation request and the price carried in
the buttons. -/
structure OfferDecision where
  confirmCase : Bool
  offerPrice : ℚ
  deriving DecidableEq, Repr

/-- The price decision of `sendOfferMessageGateway`, src/lib/discord.js
lines 400-408: `confirmCase` is true when both the (already normalized)
ask and ceiling are numbers and the ask is at most the ceiling;
`offerPrice = round2(confirmCase ? suggested : adjustedMax)`.
`none` models a `null` input (the caller in src/server.js defaults
missing prices to `null`). -/
def decideOffer (suggested adjustedMax : Option ℚ) : OfferDecision :=
  let confirmCase : Bool :=
    match suggested, adjustedMax with
    | some s, some m => decide (s ≤ m)
    | _, _ => false
  let rawOfferPrice : Option ℚ := if confirmCase then suggested else adjustedMax
  { confirmCase := confirmCase, offerPrice := round2 (jsNumOrZero rawOfferPrice) }

/-- JavaScript `s.split(sep)` for a one-character separator, on character
lists: splitting never yields the empty list, and separators at the ends
produce empty pieces, exactly as in JavaScript. -/
def splitCharList (sep : Char) : List Char → List (List Char)
  | [] => [[]]
  | c :: cs =>
    let r := splitCharList sep cs
    if c == sep then [] :: r
    else
      match r with
      | [] => [[c]]
      | h :: t => (c :: h) :: t

/-- JavaScript `s.split(sep)` on strings (one-character separator). -/
def jsSplit (sep : Char) (s : String) : List String :=
  (splitCharList sep s.data).map fun l => String.mk l

/-- Numeric value of a list of decimal digit characters. -/
def digitsVal (l : List Char) : ℕ :=
  l.foldl (fun acc c => acc * 10 + (c.toNat - 48)) 0

/-- Whether every character of the list is a decimal digit. -/
def allDigits (l : List Char) : Bool := l.all Char.isDigit

/-- Parse an unsigned decimal numeral, JavaScript style: digits with an
optional dot and fraction digits; `"1."` and `".5"` parse, a bare `"."`
or anything else is NaN (`none`). -/
def parseUnsignedDec (l : List Char) : Option ℚ :=
  match splitCharList '.' l with
  | [ip] =>
    if allDigits ip && !ip.isEmpty then some (digitsVal ip : ℚ) else none
  | [ip, fp] =>
    if allDigits ip && allDigits fp && !(ip.isEmpty && fp.isEmpty) then
      some ((digitsVal ip : ℚ) + (digitsVal fp : ℚ) / 10 ^ fp.length)
    else none
  | _ => none

/-- Parse an optionally signed decimal numeral. -/
def parseSignedDec : List Char → Option ℚ
  | '-' :: rest => (parseUnsignedDec rest).map fun q => -q
  | '+' :: rest => parseUnsignedDec rest
  | l => parseUnsignedDec l

/-- Characters removed by JavaScript string-to-number trimming
(restricted to the common ASCII whitespace, which is all that can occur
in this system). -/
def isJsSpace (c : Char) : Bool :=
  c == ' ' || c == '\t' || c == '\n' || c == '\r'

/-- JavaScript `Number(s)` for a string, restricted to plain decimal
numerals: whitespace is trimmed, the empty string is 0, a signed decimal
numeral parses, everything else is NaN (`none`). -/
def jsStrToNumber (s : String) : Option ℚ :=
  let t := (s.data.dropWhile isJsSpace).reverse.dropWhile isJsSpace |>.reverse
  if t.isEmpty then some 0 else parseSignedDec t

/-- The JavaScript `Number(x)` coercion applied to a destructured field that may be `undefined`:
`Number(undefined)` is NaN (`none`). -/
def jsNumberOfField : Option String → Option ℚ
  | none => none
  | some s => jsStrToNumber s

/-- The decoded click context produced by `onButtonInteraction`,
src/lib/discord.js lines 288-291: the five destructured components of
`customId.split("|")`.  A component beyond the length of the split is
JavaScript `undefined`, modelled as `none`; `offerPrice` is `none` when
`Number(offerPriceStr)` is NaN. -/
structure ClickCtx where
  action : Option String
  orderRecId : Option String
  sellerId : Option String
  inventoryRecordId : Option String
  offerPrice : Option ℚ
  deriving DecidableEq, Repr

/-- Click-token encoding of `sendOfferMessageGateway`, src/lib/discord.js
lines 449-463: the button custom_id is the template string
`action|orderRecId|sellerId|inventoryRecordId|offerPrice`, with the price
already rendered as a string by the template literal. -/
def encodeToken (action orderRecId sellerId inventoryRecordId priceStr : String) :
    String :=
  action ++ "|" ++ orderRecId ++ "|" ++ sellerId ++ "|" ++ inventoryRecordId
    ++ "|" ++ priceStr

/-- Click-token decoding of `onButtonInteraction`, src/lib/discord.js
lines 288-291: destructure the first five components of
`String(customId).split("|")` and parse the fifth with `Number`.  There
is no field-count check and no error path: the handler is always
invoked with whatever this produces. -/
def decodeToken (customId : String) : ClickCtx :=
  let parts := jsSplit '|' customId
  { action := parts[0]?
    orderRecId := parts[1]?
    sellerId := parts[2]?
    inventoryRecordId := parts[3]?
    offerPrice := jsNumberOfField parts[4]? }

/-- Modelled from the spec (section 4.2), for comparison with
`decodeToken` only: the spec's `decode(string) → fields or DecodeError`,
which reports an error (`none`) "if the field count or numeric parse
fails".  The code's actual decoder is `decodeToken`. -/
def decodeSpec (customId : String) : Option (String × String × String × String × ℚ) :=
  match jsSplit '|' customId with
  | [a, o, s, i, p] =>
    match jsStrToNumber p with
    | some q => some (a, o, s, i, q)
    | none => none
  | _ => none

/-- A duck-typed Airtable cell value, as probed by the source with
`typeof`: a number, a string, or an absent field. -/
inductive CellVal where
  | num (q : ℚ)
  | str (s : String)
  | missing
  deriving DecidableEq, Repr

/-- The quantity coercion of `createSaleAndDecrement`, src/lib/airtable.js
line 168: `typeof f[Quantity] === "number" ? f[Quantity] : 0` - a missing
or non-numeric stored quantity is treated as 0. -/
def qtyAsNumber : CellVal → ℚ
  | CellVal.num q => q
  | _ => 0

/-- The fields of an Inventory record that the verified claims mention
(the source also copies product name, size, brand and linked ids into the
Sales row; those are irrelevant to every claim and are projected away). -/
structure InvFields where
  qty : CellVal
  deriving DecidableEq, Repr

/-- A row of the Sales table, projected to the fields the claims mention:
the linked order and the stored final price (`null` when the click price
was not a number). -/
structure SaleRow where
  orderRecId : String
  finalPrice : Option ℚ
  deriving DecidableEq, Repr

/-- A row of the Offer Messages registry table.  Every field is optional:
`logOfferMessage` writes whatever it was given and rows can be edited by
hand in Airtable. -/
structure MsgRec where
  orderRecId : Option String
  channelId : Option String
  messageId : Option String
  deriving DecidableEq, Repr

/-- A Discord message as the platform holds it: its location, whether its
buttons are still active, and the note last written onto it. -/
structure DiscordMsg where
  channelId : String
  messageId : String
  active : Bool
  note : Option String
  deriving DecidableEq, Repr

/-- The external world the service reads and writes: the Airtable Sales
table, Inventory table (an association list from record id to fields),
the Offer Messages registry, and the Discord-side message states. -/
structure SysState where
  sales : List SaleRow
  inventory : List (String × InvFields)
  registry : List MsgRec
  messages : List DiscordMsg
  deriving DecidableEq, Repr

/-- JavaScript truthiness of an optional string field: `undefined` and
the empty string are falsy, every other string is truthy. -/
def truthyStr : Option String → Bool
  | none => false
  | some s => !(s == "")

/-- Function `listOfferMessagesForOrder` of src/lib/airtable.js lines 90-102:
select the registry rows whose Order Record ID equals the given order,
project each to its `(channelId, messageId)` pair, and drop every pair in
which either field is falsy (missing or empty). -/
def listOfferMessagesForOrder (registry : List MsgRec) (orderRecId : String) :
    List (Option String × Option String) :=
  ((registry.filter fun r => r.orderRecId == some orderRecId).map
      fun r => (r.channelId, r.messageId)).filter
    fun p => truthyStr p.1 && truthyStr p.2

/-- One observable step of the handlers, used to state ordering and
frame properties.  `orderStatusUpdated` exists only so that the spec's
claimed order-status write can be talked about: no handler in
src/server.js ever emits it. -/
inductive Event where
  | saleCreated (orderRecId : String) (finalPrice : Option ℚ)
  | qtyPatched (inventoryId : String) (newQty : ℚ)
  | orderStatusUpdated (orderRecId : String)
  | deactivated (channelId messageId note : String)
  | deactivateFailed (channelId messageId : String)
  | logged (msg : String)
  deriving DecidableEq, Repr

/-- Whether an event is a message-deactivation attempt (successful or
failed). -/
def Event.isDeactivation : Event → Bool
  | Event.deactivated _ _ _ => true
  | Event.deactivateFailed _ _ => true
  | _ => false

/-- Whether an event is the order-status update claimed by the spec. -/
def Event.isStatusUpdate : Event → Bool
  | Event.orderStatusUpdated _ => true
  | _ => false

/-- Function `createSaleAndDecrement` of src/lib/airtable.js lines 114-176:
read the Inventory record (a missing record makes the Airtable GET fail,
which the caller catches), append a Sales row holding the linked order
and `round2` of the final price (`null` when the price is not a number),
then patch the quantity to `max(0, qty - 1)` where a missing or
non-numeric quantity counts as 0. -/
def createSaleAndDecrement (st : SysState) (inventoryId orderRecId : String)
    (finalPrice : Option ℚ) : Except String (SysState × List Event) :=
  match st.inventory.lookup inventoryId with
  | none => Except.error "[Airtable] GET Inventory -> 404"
  | some f =>
    let qty := qtyAsNumber f.qty
    let newQty := max 0 (qty - 1)
    let sale : SaleRow := { orderRecId := orderRecId,
                            finalPrice := finalPrice.map round2 }
    Except.ok
      ({ st with
          sales := st.sales ++ [sale]
          inventory := st.inventory.map fun p =>
            if p.1 == inventoryId then (p.1, { qty := CellVal.num newQty }) else p },
        [Event.saleCreated orderRecId (finalPrice.map round2),
         Event.qtyPatched inventoryId newQty])

/-- The failure oracle for best-effort Discord edits: which
`disableMessageButtonsGateway` calls fail (for example because the
message was deleted or the API returned a non-2xx status). -/
structure ClickEnv where
  disableFails : String → String → Bool

/-- The platform-side edit performed by a successful
`disableMessageButtonsGateway` call on one stored message: if the
message is the targeted one its buttons become disabled and the note is
written, otherwise it is untouched. -/
def disableStep (c m note : String) (d : DiscordMsg) : DiscordMsg :=
  if d.channelId == c && d.messageId == m then
    { d with active := false, note := some note }
  else d

/-- Function `disableMessageButtonsGateway` of src/lib/discord.js lines 487-504 as
one state step: on success the targeted message's buttons become
disabled and the note is written; on failure the platform state is
unchanged and the rejection is only observable in the event. -/
def disableOne (env : ClickEnv) (st : SysState) (c m note : String) :
    SysState × Event :=
  if env.disableFails c m then (st, Event.deactivateFailed c m)
  else
    ({ st with messages := st.messages.map (disableStep c m note) },
      Event.deactivated c m note)

/-- The `Promise.allSettled(msgs.map(m => disableMessageButtonsGateway(...)))` call
of src/server.js: every listed pair is attempted, each failure is
isolated, and the settled results are discarded. -/
def disableBatch (env : ClickEnv) (st : SysState)
    (ps : List (Option String × Option String)) (note : String) :
    SysState × List Event :=
  match ps with
  | [] => (st, [])
  | p :: rest =>
    let r1 := disableOne env st (p.1.getD "") (p.2.getD "") note
    let r2 := disableBatch env r1.1 rest note
    (r2.1, r1.2 :: r2.2)

/-- The argument record of the `onButtonInteraction` callback in
src/server.js line 140 (`{action, orderRecId, sellerId,
inventoryRecordId, offerPrice}`). -/
structure HandlerIn where
  action : String
  orderRecId : String
  sellerId : String
  inventoryRecordId : String
  offerPrice : Option ℚ
  deriving DecidableEq, Repr

/-- The `onButtonInteraction` callback of src/server.js lines 140-177.
`confirm`: run `createSaleAndDecrement` unconditionally (there is no
SaleRecord-existence check and no per-order guard in this handler), then
list every registry entry for the order and disable them all with a
"Matched" note under `Promise.allSettled`.  `deny`: list every registry
entry for the order and disable them all with a denial note.  Any thrown
error is caught and logged, leaving the state as it was. -/
def handleClick (env : ClickEnv) (st : SysState) (ctx : HandlerIn) :
    SysState × List Event :=
  if ctx.action == "confirm" then
    match createSaleAndDecrement st ctx.inventoryRecordId ctx.orderRecId
        ctx.offerPrice with
    | Except.error e => (st, [Event.logged e])
    | Except.ok (st1, ev1) =>
      let msgs := listOfferMessagesForOrder st1.registry ctx.orderRecId
      let r := disableBatch env st1 msgs
        ("✅ Matched by " ++ ctx.sellerId ++ ". Offers closed.")
      (r.1, ev1 ++ r.2)
  else if ctx.action == "deny" then
    let msgs := listOfferMessagesForOrder st.registry ctx.orderRecId
    let r := disableBatch env st msgs
      ("❌ " ++ ctx.sellerId ++ " denied / not available.")
    (r.1, r.2)
  else (st, [])

/-- One seller entry of the POST /offers payload, projected to the
identifier the dispatch loop threads through (the price and VAT fields
only feed `sendOfferMessageGateway`, which the dispatch model treats as
an oracle). -/
structure Seller where
  sellerId : String
  deriving DecidableEq, Repr

/-- What `sendOfferMessageGateway` does for one seller: either it returns
the posted message's location and price, or it throws (channel
resolution failed, channel creation disabled, or the Discord POST
returned a non-2xx status). -/
inductive SendOutcome where
  | posted (channelId messageId : String) (offerPrice : ℚ)
  | threw (err : String)
  deriving DecidableEq, Repr

/-- The environment of one POST /offers request: the outcome of the
Discord send for each seller id. -/
structure DispatchEnv where
  send : String → SendOutcome

/-- The response of the POST /offers handler: `ok` carries the
`{sellerId, messageId}` list echoed as `sent` (so `sentCount` is its
length), `err` is the 500 response produced by the handler's single
catch block. -/
inductive DispatchResult where
  | ok (sent : List (String × String))
  | err (msg : String)
  deriving DecidableEq, Repr

/-- The seller loop of the POST /offers handler, src/server.js lines
42-105.  The whole loop body sits inside the handler's one try block:
only `logOfferMessage` has its own try/catch, so a throw from
`sendOfferMessageGateway` propagates to the outer catch and ends the
request with a 500.  The first component of the result is the list of
seller ids for which a send was attempted. -/
def dispatchGo (env : DispatchEnv) :
    List Seller → List (String × String) → List String × DispatchResult
  | [], acc => ([], DispatchResult.ok acc)
  | s :: rest, acc =>
    match env.send s.sellerId with
    | SendOutcome.threw e => ([s.sellerId], DispatchResult.err e)
    | SendOutcome.posted _c mid _p =>
      let r := dispatchGo env rest (acc ++ [(s.sellerId, mid)])
      (s.sellerId :: r.1, r.2)

/-- The POST /offers handler's dispatch of one order to its seller list
(src/server.js lines 29-110), starting from an empty results array. -/
def dispatchOffers (env : DispatchEnv) (sellers : List Seller) :
    List String × DispatchResult :=
  dispatchGo env sellers []

/-- Rebuilding a string from its character data is the identity. -/
theorem stringMk_data (s : String) : String.mk s.data = s := rfl

/-- Splitting a piece that does not contain the separator yields just
that piece. -/
theorem splitCharList_no_sep (sep : Char) (xs : List Char) (h : sep ∉ xs) :
    splitCharList sep xs = [xs] := by
  induction xs with
  | nil => rfl
  | cons c cs ih =>
    have hc : (c == sep) = false := by
      simp only [beq_eq_false_iff_ne]
      intro hce
      exact h (hce ▸ List.mem_cons_self c cs)
    have hcs : sep ∉ cs := fun hm => h (List.mem_cons_of_mem c hm)
    simp [splitCharList, hc, ih hcs]

/-- Splitting peels off a separator-free piece in front of a separator. -/
theorem splitCharList_append_sep (sep : Char) (xs ys : List Char)
    (h : sep ∉ xs) :
    splitCharList sep (xs ++ sep :: ys) = xs :: splitCharList sep ys := by
  induction xs with
  | nil => simp [splitCharList]
  | cons c cs ih =>
    have hc : (c == sep) = false := by
      simp only [beq_eq_false_iff_ne]
      intro hce
      exact h (hce ▸ List.mem_cons_self c cs)
    have hcs : sep ∉ cs := fun hm => h (List.mem_cons_of_mem c hm)
    have hne : splitCharList sep (cs ++ sep :: ys) = cs :: splitCharList sep ys :=
      ih hcs
    simp [splitCharList, hc, hne]

/-- Splitting the encoded token recovers the five pieces whenever no
field contains the delimiter. -/
theorem jsSplit_encodeToken (a o s i p : String)
    (ha : '|' ∉ a.data) (ho : '|' ∉ o.data) (hs : '|' ∉ s.data)
    (hi : '|' ∉ i.data) (hp : '|' ∉ p.data) :
    jsSplit '|' (encodeToken a o s i p) = [a, o, s, i, p] := by
  have hdata : (encodeToken a o s i p).data
      = a.data ++ '|' :: (o.data ++ '|' :: (s.data ++ '|' :: (i.data ++ '|' :: p.data))) := by
    simp [encodeToken, String.data_append]
  unfold jsSplit
  rw [hdata, splitCharList_append_sep _ _ _ ha, splitCharList_append_sep _ _ _ ho,
    splitCharList_append_sep _ _ _ hs, splitCharList_append_sep _ _ _ hi,
    splitCharList_no_sep _ _ hp]
  simp [stringMk_data]

/-- C6: for every action, orderId, sellerId, inventoryUnitId and price
string free of the `|` delimiter whose price parses as a number, encoding
the click token and decoding it again recovers exactly the original five
fields, with the price parsed back as the same number. -/
theorem claim_C6_token_roundtrip (a o s i p : String) (price : ℚ)
    (ha : '|' ∉ a.data) (ho : '|' ∉ o.data) (hs : '|' ∉ s.data)
    (hi : '|' ∉ i.data) (hp : '|' ∉ p.data)
    (hparse : jsStrToNumber p = some price) :
    decodeToken (encodeToken a o s i p) =
      { action := some a, orderRecId := some o, sellerId := some s,
        inventoryRecordId := some i, offerPrice := some price } := by
  unfold decodeToken
  rw [jsSplit_encodeToken a o s i p ha ho hs hi hp]
  simp [jsNumberOfField, hparse]

/-- Closed check of C6 on the concrete token fields of a confirmation
button. -/
theorem claim_C6_token_roundtrip_witness :
    decodeToken (encodeToken "confirm" "recOrder1" "SELL1" "recInv1" "90") =
      { action := some "confirm", orderRecId := some "recOrder1",
        sellerId := some "SELL1", inventoryRecordId := some "recInv1",
        offerPrice := some 90 } :=
  claim_C6_token_roundtrip "confirm" "recOrder1" "SELL1" "recInv1" "90" 90
    (by decide) (by decide) (by decide) (by decide) (by decide) rfl

/-- C7, counterexample: the spec's decoder reports a DecodeError on the
one-field input `"confirmed"` (the custom_id Discord sends for an
already-disabled button), but the code's decoder produces a field tuple
for it — action `"confirmed"`, every other field `undefined`, price NaN —
and the handler is invoked on that tuple.  There is no error path. -/
theorem claim_C7_counterexample :
    decodeSpec "confirmed" = none
    ∧ decodeToken "confirmed" =
      { action := some "confirmed", orderRecId := none, sellerId := none,
        inventoryRecordId := none, offerPrice := none } := by
  constructor <;> rfl

/-- C7, amended: decoding never reports an error.  Fewer than five split
components leave the price NaN (`Number(undefined)`), exactly five or
more components destructure positionally with components beyond the
fifth dropped, and a fifth component that does not parse as a number
yields a NaN price rather than an error; the handler runs in every
case. -/
theorem claim_C7_decode_total (cid : String) :
    ((jsSplit '|' cid).length < 5 → (decodeToken cid).offerPrice = none)
    ∧ (∀ a o s i p rest, jsSplit '|' cid = a :: o :: s :: i :: p :: rest →
        decodeToken cid =
          { action := some a, orderRecId := some o, sellerId := some s,
            inventoryRecordId := some i, offerPrice := jsStrToNumber p })
    ∧ (decodeToken cid).action = (jsSplit '|' cid)[0]? := by
  refine ⟨?_, ?_, rfl⟩
  · intro hlen
    have h4 : (jsSplit '|' cid)[4]? = none :=
      List.getElem?_eq_none (by omega)
    simp [decodeToken, h4, jsNumberOfField]
  · intro a o s i p rest hsplit
    simp [decodeToken, hsplit, jsNumberOfField]

/-- Closed check of C7's amended statement: a six-field custom_id still
decodes to a tuple (sixth field dropped), and a one-field custom_id
decodes with a NaN price. -/
theorem claim_C7_decode_total_witness :
    decodeToken "a|b|c|d|12|extra" =
      { action := some "a", orderRecId := some "b", sellerId := some "c",
        inventoryRecordId := some "d", offerPrice := some 12 }
    ∧ (decodeToken "deny").offerPrice = none :=
  ⟨(claim_C7_decode_total "a|b|c|d|12|extra").2.1 "a" "b" "c" "d" "12" ["extra"]
      (by decide),
    (claim_C7_decode_total "deny").1 (by decide)⟩

/-- The price decision on two present (non-null) prices, in closed form. -/
theorem decideOffer_nums (s m : ℚ) :
    decideOffer (some s) (some m) =
      { confirmCase := decide (s ≤ m),
        offerPrice := round2 (if s ≤ m then s else m) } := by
  by_cases h : s ≤ m <;> simp [decideOffer, jsNumOrZero, h]

/-- C2: the gateway confirms exactly when the normalized ask is at most
the normalized ceiling (boundary equality confirms), and on two-decimal
amounts the decided price is exactly the ask when confirming and exactly
the ceiling otherwise; in particular ceiling 100.00 with ask 90.00 gives
Confirm at 90.00 and with ask 110.00 gives CounterOffer at 100.00. -/
theorem claim_C2_price_decision (s m : ℚ) (sa ma : ℤ)
    (hs : s = (sa : ℚ) / 100) (hm : m = (ma : ℚ) / 100) :
    ((decideOffer (some s) (some m)).confirmCase = true ↔ s ≤ m)
    ∧ (decideOffer (some s) (some m)).offerPrice = (if s ≤ m then s else m)
    ∧ decideOffer (some 90) (some 100) = { confirmCase := true, offerPrice := 90 }
    ∧ decideOffer (some 110) (some 100) =
        { confirmCase := false, offerPrice := 100 } := by
  refine ⟨?_, ?_, ?_, ?_⟩
  · simp [decideOffer_nums]
  · rw [decideOffer_nums]
    by_cases h : s ≤ m
    · simp only [h, if_true]
      rw [hs, round2_cents]
    · simp only [h, if_false]
      rw [hm, round2_cents]
  · rw [decideOffer_nums]
    have h1 : (decide ((90:ℚ) ≤ 100)) = true := by norm_num
    have h2 : round2 (if (90:ℚ) ≤ 100 then (90:ℚ) else 100) = 90 := by
      rw [if_pos (by norm_num : (90:ℚ) ≤ 100)]
      have h90 : (90 : ℚ) = ((9000 : ℤ) : ℚ) / 100 := by norm_num
      rw [h90, round2_cents]
    rw [h1, h2]
  · rw [decideOffer_nums]
    have h1 : (decide ((110:ℚ) ≤ 100)) = false := by norm_num
    have h2 : round2 (if (110:ℚ) ≤ 100 then (110:ℚ) else 100) = 100 := by
      rw [if_neg (by norm_num : ¬ (110:ℚ) ≤ 100)]
      have h100 : (100 : ℚ) = ((10000 : ℤ) : ℚ) / 100 := by norm_num
      rw [h100, round2_cents]
    rw [h1, h2]

/-- Closed check of C2 at ask 90.00 against ceiling 100.00. -/
theorem claim_C2_price_decision_witness :
    ((decideOffer (some 90) (some 100)).confirmCase = true ↔ (90:ℚ) ≤ 100)
    ∧ (decideOffer (some 90) (some 100)).offerPrice =
        (if (90:ℚ) ≤ 100 then (90:ℚ) else 100)
    ∧ decideOffer (some 90) (some 100) = { confirmCase := true, offerPrice := 90 }
    ∧ decideOffer (some 110) (some 100) =
        { confirmCase := false, offerPrice := 100 } :=
  claim_C2_price_decision 90 100 9000 10000 (by norm_num) (by norm_num)

/-- C8: for a zero-rated (VAT0) seller located in the buyer's own
jurisdiction (the Netherlands) with a positive VAT rate r, the "Your
Price" figure displayed back to the seller is the ask grossed up by the
rate and rounded to two decimals, `round2(ask * (1 + r/100))`; with rate
21 and ask 80.00 the displayed price is 96.80. -/
theorem claim_C8_display_grossup (ask r : ℚ) (vatType country : String)
    (hvt : strIncludes (jsToUpper vatType) "VAT0" = true)
    (hnl : isNL country = true) (hr : 0 < r) :
    displayYourPrice ask vatType country (some r) = round2 (ask * (1 + r / 100))
    ∧ displayYourPrice 80 "VAT0" "Netherlands" (some 21) = 484 / 5 := by
  constructor
  · simp [displayYourPrice, hvt, hnl, hr]
  · have hvt0 : strIncludes (jsToUpper "VAT0") "VAT0" = true := by decide
    have hnl0 : isNL "Netherlands" = true := by decide
    have h8 : (80 : ℚ) * (1 + 21 / 100) = ((9680 : ℤ) : ℚ) / 100 := by norm_num
    have : displayYourPrice 80 "VAT0" "Netherlands" (some 21)
        = round2 (80 * (1 + 21 / 100)) := by
      simp [displayYourPrice, hvt0, hnl0]
    rw [this, h8, round2_cents]
    norm_num

/-- Closed check of C8 at the spec's scenario 3 numbers. -/
theorem claim_C8_display_grossup_witness :
    displayYourPrice 80 "VAT0" "Netherlands" (some 21)
      = round2 (80 * (1 + 21 / 100))
    ∧ displayYourPrice 80 "VAT0" "Netherlands" (some 21) = 484 / 5 :=
  claim_C8_display_grossup 80 21 "VAT0" "Netherlands" (by decide) (by decide)
    (by norm_num)

/-- C9: whenever the Inventory record is readable, `createSaleAndDecrement`
succeeds and writes back quantity `max(0, old - 1)`, which is never
negative; a missing or non-numeric stored quantity is coerced to 0
before the decrement. -/
theorem claim_C9_decrement_nonneg (st : SysState) (invId ord : String)
    (price : Option ℚ) (f : InvFields)
    (hf : st.inventory.lookup invId = some f) :
    (∃ st2, createSaleAndDecrement st invId ord price =
        Except.ok (st2,
          [Event.saleCreated ord (price.map round2),
           Event.qtyPatched invId (max 0 (qtyAsNumber f.qty - 1))]))
    ∧ 0 ≤ max 0 (qtyAsNumber f.qty - 1)
    ∧ (∀ v : CellVal, (∀ q : ℚ, v ≠ CellVal.num q) → qtyAsNumber v = 0) := by
  refine ⟨?_, le_max_left 0 _, ?_⟩
  · simp only [createSaleAndDecrement, hf]
    exact ⟨_, rfl⟩
  · intro v hv
    cases v with
    | num q => exact absurd rfl (hv q)
    | str s => rfl
    | missing => rfl

/-- Closed check of C9 on a store whose inventory record holds the
string `"n/a"` as its quantity: the write-back is `max 0 (0 - 1) = 0`. -/
theorem claim_C9_decrement_nonneg_witness :
    (∃ st2,
      createSaleAndDecrement
        { sales := [], inventory := [("recInv1", { qty := CellVal.str "n/a" })],
          registry := [], messages := [] } "recInv1" "recOrder1" (some 90) =
      Except.ok (st2,
        [Event.saleCreated "recOrder1" ((some (90:ℚ)).map round2),
         Event.qtyPatched "recInv1"
           (max 0 (qtyAsNumber (CellVal.str "n/a") - 1))]))
    ∧ 0 ≤ max 0 (qtyAsNumber (CellVal.str "n/a") - 1)
    ∧ (∀ v : CellVal, (∀ q : ℚ, v ≠ CellVal.num q) → qtyAsNumber v = 0) :=
  claim_C9_decrement_nonneg _ "recInv1" "recOrder1" (some 90)
    { qty := CellVal.str "n/a" } rfl

/-- C10: every pair returned by the registry query has a present,
non-empty channel id and message id; any pair with a missing or empty
side is dropped from the result, so the deactivate-all paths never see a
missing message location. -/
theorem claim_C10_registry_filter (registry : List MsgRec) (ord : String) :
    (∀ p ∈ listOfferMessagesForOrder registry ord,
      ∃ c m, p = (some c, some m) ∧ c ≠ "" ∧ m ≠ "")
    ∧ (∀ q : Option String × Option String,
        truthyStr q.1 = false ∨ truthyStr q.2 = false →
        q ∉ listOfferMessagesForOrder registry ord) := by
  constructor
  · intro p hp
    have hmem := List.mem_filter.mp hp
    have htr : (truthyStr p.1 && truthyStr p.2) = true := hmem.2
    have hsplit : truthyStr p.1 = true ∧ truthyStr p.2 = true := by
      simpa using htr
    have h1 : truthyStr p.1 = true := hsplit.1
    have h2 : truthyStr p.2 = true := hsplit.2
    match hc : p.1 with
    | none => rw [hc] at h1; exact absurd h1 (by simp [truthyStr])
    | some c =>
      match hm : p.2 with
      | none => rw [hm] at h2; exact absurd h2 (by simp [truthyStr])
      | some m =>
        refine ⟨c, m, ?_, ?_, ?_⟩
        · calc p = (p.1, p.2) := rfl
            _ = (some c, some m) := by rw [hc, hm]
        · rw [hc] at h1; simpa [truthyStr] using h1
        · rw [hm] at h2; simpa [truthyStr] using h2
  · intro q hq hmem
    have htr : (truthyStr q.1 && truthyStr q.2) = true := (List.mem_filter.mp hmem).2
    rcases hq with h | h
    · rw [h] at htr; simp at htr
    · rw [h] at htr; simp at htr

/-- Closed check of C10 on a registry holding one complete row, one row
with no channel id, and one row with an empty message id. -/
theorem claim_C10_registry_filter_witness :
    (∀ p ∈ listOfferMessagesForOrder
        [{ orderRecId := some "o1", channelId := some "c1", messageId := some "m1" },
         { orderRecId := some "o1", channelId := none, messageId := some "m2" },
         { orderRecId := some "o1", channelId := some "c3", messageId := some "" }]
        "o1",
      ∃ c m, p = (some c, some m) ∧ c ≠ "" ∧ m ≠ "")
    ∧ (∀ q : Option String × Option String,
        truthyStr q.1 = false ∨ truthyStr q.2 = false →
        q ∉ listOfferMessagesForOrder
          [{ orderRecId := some "o1", channelId := some "c1", messageId := some "m1" },
           { orderRecId := some "o1", channelId := none, messageId := some "m2" },
           { orderRecId := some "o1", channelId := some "c3", messageId := some "" }]
          "o1") :=
  claim_C10_registry_filter _ "o1"

/-- Whether an event records a Sales-row creation. -/
def Event.isSaleCreate : Event → Bool
  | Event.saleCreated _ _ => true
  | _ => false

/-- Whether an event records an inventory-quantity write. -/
def Event.isQtyPatch : Event → Bool
  | Event.qtyPatched _ _ => true
  | _ => false

/-- The cumulative effect of one best-effort disable batch on a single
Discord message, step by step through the batch list. -/
def applyBatch (env : ClickEnv) (ps : List (Option String × Option String))
    (note : String) (d : DiscordMsg) : DiscordMsg :=
  match ps with
  | [] => d
  | p :: rest =>
    let d1 :=
      if env.disableFails (p.1.getD "") (p.2.getD "") then d
      else disableStep (p.1.getD "") (p.2.getD "") note d
    applyBatch env rest note d1

/-- A disable batch only edits Discord messages: the Airtable-side state
is untouched and its per-message effect is `applyBatch` pointwise. -/
theorem disableBatch_state (env : ClickEnv)
    (ps : List (Option String × Option String)) (st : SysState) (note : String) :
    (disableBatch env st ps note).1.sales = st.sales
    ∧ (disableBatch env st ps note).1.inventory = st.inventory
    ∧ (disableBatch env st ps note).1.registry = st.registry
    ∧ (disableBatch env st ps note).1.messages
        = st.messages.map (applyBatch env ps note) := by
  induction ps generalizing st with
  | nil => simp [disableBatch, applyBatch]
  | cons p rest ih =>
    by_cases hfail : env.disableFails (p.1.getD "") (p.2.getD "") = true
    · have h1 : (disableOne env st (p.1.getD "") (p.2.getD "") note).1 = st := by
        simp [disableOne, hfail]
      have hpt : applyBatch env (p :: rest) note = applyBatch env rest note := by
        funext d
        simp [applyBatch, hfail]
      simp only [disableBatch, h1, hpt]
      exact ih st
    · have hfail2 : env.disableFails (p.1.getD "") (p.2.getD "") = false := by
        simpa using hfail
      have h1 : (disableOne env st (p.1.getD "") (p.2.getD "") note).1
          = { st with messages :=
                st.messages.map (disableStep (p.1.getD "") (p.2.getD "") note) } := by
        simp [disableOne, hfail2]
      have hpt : (fun d => applyBatch env rest note
            (disableStep (p.1.getD "") (p.2.getD "") note d))
          = applyBatch env (p :: rest) note := by
        funext d
        simp [applyBatch, hfail2]
      obtain ⟨hs, hi, hr, hm⟩ :=
        ih { st with messages :=
              st.messages.map (disableStep (p.1.getD "") (p.2.getD "") note) }
      simp only [disableBatch, h1]
      refine ⟨hs, hi, hr, ?_⟩
      rw [hm]
      simp only [List.map_map]
      rw [show (applyBatch env rest note ∘ disableStep (p.1.getD "") (p.2.getD "") note)
          = applyBatch env (p :: rest) note from funext fun d => by
        simpa using congrFun hpt d]

/-- Every event emitted by a disable batch is a deactivation attempt. -/
theorem disableBatch_events (env : ClickEnv)
    (ps : List (Option String × Option String)) (st : SysState) (note : String) :
    ∀ e ∈ (disableBatch env st ps note).2, e.isDeactivation = true := by
  induction ps generalizing st with
  | nil => simp [disableBatch]
  | cons p rest ih =>
    intro e he
    simp only [disableBatch] at he
    rcases List.mem_cons.mp he with h | h
    · subst h
      by_cases hfail : env.disableFails (p.1.getD "") (p.2.getD "") = true <;>
        simp [disableOne, hfail, Event.isDeactivation]
    · exact ih _ e h

/-- Applying `disableStep` never changes a message's location. -/
theorem disableStep_loc (c m note : String) (d : DiscordMsg) :
    (disableStep c m note d).channelId = d.channelId
    ∧ (disableStep c m note d).messageId = d.messageId := by
  unfold disableStep
  by_cases h : (d.channelId == c && d.messageId == m) = true <;> simp [h]

/-- Applying `disableStep` never re-activates a message. -/
theorem disableStep_mono (c m note : String) (d : DiscordMsg)
    (hd : d.active = false) :
    (disableStep c m note d).active = false := by
  unfold disableStep
  by_cases h : (d.channelId == c && d.messageId == m) = true <;> simp [h, hd]

/-- Applying `disableStep` on any message other than the targeted one is the
identity. -/
theorem disableStep_miss (c m note : String) (d : DiscordMsg)
    (h : ¬(d.channelId = c ∧ d.messageId = m)) :
    disableStep c m note d = d := by
  have hb : (d.channelId == c && d.messageId == m) = false := by
    rcases not_and_or.mp h with h1 | h1 <;> simp [h1]
  simp [disableStep, hb]

/-- Applying `applyBatch` never changes a message's location. -/
theorem applyBatch_loc (env : ClickEnv) (ps : List (Option String × Option String))
    (note : String) :
    ∀ d : DiscordMsg, (applyBatch env ps note d).channelId = d.channelId
      ∧ (applyBatch env ps note d).messageId = d.messageId := by
  induction ps with
  | nil => exact fun d => ⟨rfl, rfl⟩
  | cons p rest ih =>
    intro d
    simp only [applyBatch]
    by_cases hfail : env.disableFails (p.1.getD "") (p.2.getD "") = true
    · rw [if_pos hfail]
      exact ih d
    · rw [if_neg hfail]
      refine ⟨?_, ?_⟩
      · rw [(ih _).1, (disableStep_loc _ _ _ d).1]
      · rw [(ih _).2, (disableStep_loc _ _ _ d).2]

/-- Applying `applyBatch` never re-activates a message. -/
theorem applyBatch_mono (env : ClickEnv) (ps : List (Option String × Option String))
    (note : String) :
    ∀ d : DiscordMsg, d.active = false →
      (applyBatch env ps note d).active = false := by
  induction ps with
  | nil => exact fun d hd => hd
  | cons p rest ih =>
    intro d hd
    simp only [applyBatch]
    by_cases hfail : env.disableFails (p.1.getD "") (p.2.getD "") = true
    · rw [if_pos hfail]
      exact ih d hd
    · rw [if_neg hfail]
      exact ih _ (disableStep_mono _ _ _ _ hd)

/-- When none of its calls fail, a disable batch leaves every message
whose location appears in the batch list deactivated. -/
theorem applyBatch_hits (env : ClickEnv) (ps : List (Option String × Option String))
    (note : String) (hok : ∀ c m, env.disableFails c m = false) :
    ∀ d : DiscordMsg, (some d.channelId, some d.messageId) ∈ ps →
      (applyBatch env ps note d).active = false := by
  induction ps with
  | nil => exact fun d h => absurd h (List.not_mem_nil _)
  | cons p rest ih =>
    intro d hmem
    have hfailF : ¬env.disableFails (p.1.getD "") (p.2.getD "") = true := by
      simp [hok]
    simp only [applyBatch]
    rw [if_neg hfailF]
    rcases List.mem_cons.mp hmem with h | h
    · have hstep : disableStep (p.1.getD "") (p.2.getD "") note d
          = { d with active := false, note := some note } := by
        rw [← h]
        simp [disableStep]
      rw [hstep]
      exact applyBatch_mono env rest note _ rfl
    · have hloc := disableStep_loc (p.1.getD "") (p.2.getD "") note d
      apply ih
      rw [hloc.1, hloc.2]
      exact h

/-- A message whose location is not in the batch list is untouched,
provided every batch entry carries a present channel id and message id
(as the registry query guarantees). -/
theorem applyBatch_frame (env : ClickEnv) (note : String) :
    ∀ ps : List (Option String × Option String),
      (∀ p ∈ ps, ∃ c m, p = (some c, some m)) →
      ∀ d : DiscordMsg, (some d.channelId, some d.messageId) ∉ ps →
        applyBatch env ps note d = d := by
  intro ps
  induction ps with
  | nil => exact fun _ d _ => rfl
  | cons p rest ih =>
    intro hwf d hmem
    obtain ⟨c, m, hp⟩ := hwf p (List.mem_cons_self _ _)
    have hne : ¬(some d.channelId, some d.messageId) = p := fun h =>
      hmem (h ▸ List.mem_cons_self _ _)
    have hrest : (some d.channelId, some d.messageId) ∉ rest := fun h =>
      hmem (List.mem_cons_of_mem _ h)
    have hmiss : disableStep (p.1.getD "") (p.2.getD "") note d = d := by
      apply disableStep_miss
      intro hcm
      apply hne
      rw [hp]
      subst hp
      simp only [Option.getD_some] at hcm
      rw [hcm.1, hcm.2]
    have htail := ih (fun q hq => hwf q (List.mem_cons_of_mem _ hq)) d hrest
    simp only [applyBatch]
    by_cases hfail : env.disableFails (p.1.getD "") (p.2.getD "") = true
    · rw [if_pos hfail]
      exact htail
    · rw [if_neg hfail, hmiss]
      exact htail

/-- Every pair produced by the registry query carries a present channel
id and message id. -/
theorem listOffer_mem_shape (registry : List MsgRec) (ord : String) :
    ∀ p ∈ listOfferMessagesForOrder registry ord,
      ∃ c m, p = (some c, some m) := by
  intro p hp
  have htr : (truthyStr p.1 && truthyStr p.2) = true := (List.mem_filter.mp hp).2
  have hsplit : truthyStr p.1 = true ∧ truthyStr p.2 = true := by simpa using htr
  match hc : p.1, hm : p.2 with
  | none, _ => rw [hc] at hsplit; exact absurd hsplit.1 (by simp [truthyStr])
  | some c, none => rw [hm] at hsplit; exact absurd hsplit.2 (by simp [truthyStr])
  | some c, some m =>
    exact ⟨c, m, by rw [show p = (p.1, p.2) from rfl, hc, hm]⟩

/-- A deactivation event is neither a Sales-row creation nor an
inventory write. -/
theorem deactivation_flags (e : Event) (h : e.isDeactivation = true) :
    e.isSaleCreate = false ∧ e.isQtyPatch = false := by
  cases e <;>
    simp [Event.isDeactivation, Event.isSaleCreate, Event.isQtyPatch] at *

/-- C4, counterexample: a Deny click does not deactivate only the
clicked message.  With two registered messages for the order and the
click arriving on (ch1, msg1), the sibling (ch2, msg2) is deactivated as
well — it does not remain active and clickable.  (The handler makes no
Airtable change, which is the part of the claim that does hold.) -/
theorem claim_C4_counterexample :
    let st0 : SysState :=
      { sales := [], inventory := [],
        registry :=
          [{ orderRecId := some "ord1", channelId := some "ch1",
             messageId := some "msg1" },
           { orderRecId := some "ord1", channelId := some "ch2",
             messageId := some "msg2" }],
        messages :=
          [{ channelId := "ch1", messageId := "msg1", active := true, note := none },
           { channelId := "ch2", messageId := "msg2", active := true, note := none }] }
    let r := handleClick { disableFails := fun _ _ => false } st0
      { action := "deny", orderRecId := "ord1", sellerId := "sellerA",
        inventoryRecordId := "inv1", offerPrice := some 90 }
    r.1.messages =
      [{ channelId := "ch1", messageId := "msg1", active := false,
         note := some "❌ sellerA denied / not available." },
       { channelId := "ch2", messageId := "msg2", active := false,
         note := some "❌ sellerA denied / not available." }]
    ∧ r.1.sales = [] ∧ r.1.inventory = [] :=
  ⟨rfl, rfl, rfl⟩

/-- C4, amended: a Deny click deactivates, with a denial note, every
message registered for the order (the handler comments "here we disable
all for clarity" and does not even receive the clicked message's
location); messages not registered for the order are untouched, and no
Sales row and no inventory write is made. -/
theorem claim_C4_deny_disables_all (env : ClickEnv) (st : SysState)
    (ctx : HandlerIn) (hact : ctx.action = "deny")
    (hok : ∀ c m, env.disableFails c m = false) :
    (handleClick env st ctx).1.sales = st.sales
    ∧ (handleClick env st ctx).1.inventory = st.inventory
    ∧ (handleClick env st ctx).1.registry = st.registry
    ∧ (∀ d ∈ (handleClick env st ctx).1.messages,
        (some d.channelId, some d.messageId) ∈
          listOfferMessagesForOrder st.registry ctx.orderRecId →
        d.active = false)
    ∧ (∀ d ∈ st.messages,
        (some d.channelId, some d.messageId) ∉
          listOfferMessagesForOrder st.registry ctx.orderRecId →
        d ∈ (handleClick env st ctx).1.messages)
    ∧ (handleClick env st ctx).2.countP Event.isSaleCreate = 0
    ∧ (handleClick env st ctx).2.countP Event.isQtyPatch = 0 := by
  have hred : handleClick env st ctx
      = ((disableBatch env st
            (listOfferMessagesForOrder st.registry ctx.orderRecId)
            ("❌ " ++ ctx.sellerId ++ " denied / not available.")).1,
         (disableBatch env st
            (listOfferMessagesForOrder st.registry ctx.orderRecId)
            ("❌ " ++ ctx.sellerId ++ " denied / not available.")).2) := by
    simp [handleClick, hact]
  obtain ⟨hs, hi, hr, hm⟩ := disableBatch_state env
    (listOfferMessagesForOrder st.registry ctx.orderRecId) st
    ("❌ " ++ ctx.sellerId ++ " denied / not available.")
  refine ⟨?_, ?_, ?_, ?_, ?_, ?_, ?_⟩
  · rw [hred]; exact hs
  · rw [hred]; exact hi
  · rw [hred]; exact hr
  · intro d hd hmem
    rw [hred] at hd
    simp only at hd
    rw [hm] at hd
    obtain ⟨d0, hd0, hda⟩ := List.mem_map.mp hd
    have hloc := applyBatch_loc env
      (listOfferMessagesForOrder st.registry ctx.orderRecId)
      ("❌ " ++ ctx.sellerId ++ " denied / not available.") d0
    rw [← hda] at hmem ⊢
    rw [hloc.1, hloc.2] at hmem
    exact applyBatch_hits env _ _ hok d0 hmem
  · intro d hd hmem
    rw [hred]
    simp only
    rw [hm]
    refine List.mem_map.mpr ⟨d, hd, ?_⟩
    exact applyBatch_frame env _ _ (listOffer_mem_shape st.registry ctx.orderRecId)
      d hmem
  · rw [hred]
    simp only
    rw [List.countP_eq_zero]
    intro e he
    simp only [Bool.not_eq_true]
    exact (deactivation_flags e (disableBatch_events env _ st _ e he)).1
  · rw [hred]
    simp only
    rw [List.countP_eq_zero]
    intro e he
    simp only [Bool.not_eq_true]
    exact (deactivation_flags e (disableBatch_events env _ st _ e he)).2

/-- Closed check of C4's amended statement on a two-message registry. -/
theorem claim_C4_deny_disables_all_witness :
    ((handleClick { disableFails := fun _ _ => false }
        { sales := [], inventory := [],
          registry :=
            [{ orderRecId := some "ordW", channelId := some "chA",
               messageId := some "msgA" },
             { orderRecId := some "ordW", channelId := some "chB",
               messageId := some "msgB" }],
          messages :=
            [{ channelId := "chA", messageId := "msgA", active := true, note := none },
             { channelId := "chB", messageId := "msgB", active := true, note := none }] }
        { action := "deny", orderRecId := "ordW", sellerId := "sellerW",
          inventoryRecordId := "invW", offerPrice := some 45 }).1.sales = [])
    ∧ (handleClick { disableFails := fun _ _ => false }
        { sales := [], inventory := [],
          registry :=
            [{ orderRecId := some "ordW", channelId := some "chA",
               messageId := some "msgA" },
             { orderRecId := some "ordW", channelId := some "chB",
               messageId := some "msgB" }],
          messages :=
            [{ channelId := "chA", messageId := "msgA", active := true, note := none },
             { channelId := "chB", messageId := "msgB", active := true, note := none }] }
        { action := "deny", orderRecId := "ordW", sellerId := "sellerW",
          inventoryRecordId := "invW", offerPrice := some 45 }).2.countP
        Event.isSaleCreate = 0 := by
  have h := claim_C4_deny_disables_all { disableFails := fun _ _ => false }
    { sales := [], inventory := [],
      registry :=
        [{ orderRecId := some "ordW", channelId := some "chA",
           messageId := some "msgA" },
         { orderRecId := some "ordW", channelId := some "chB",
           messageId := some "msgB" }],
      messages :=
        [{ channelId := "chA", messageId := "msgA", active := true, note := none },
         { channelId := "chB", messageId := "msgB", active := true, note := none }] }
    { action := "deny", orderRecId := "ordW", sellerId := "sellerW",
      inventoryRecordId := "invW", offerPrice := some 45 }
    rfl (fun _ _ => rfl)
  exact ⟨h.1, h.2.2.2.2.2.1⟩

/-- C5, counterexample: on a winning Confirm click the handler attempts
message deactivations even though no order-status update is ever
performed — the trace holds deactivation events and zero
`orderStatusUpdated` events, so the claimed durable commit (which the
spec says includes the order status update) does not complete before
deactivation is attempted.  `setOrderMatched` exists in
src/lib/airtable.js but the handler never calls it. -/
theorem claim_C5_counterexample :
    let st0 : SysState :=
      { sales := [],
        inventory := [("inv1", { qty := CellVal.num 3 })],
        registry :=
          [{ orderRecId := some "ord1", channelId := some "ch1",
             messageId := some "msg1" }],
        messages :=
          [{ channelId := "ch1", messageId := "msg1", active := true, note := none }] }
    let tr := (handleClick { disableFails := fun _ _ => false } st0
      { action := "confirm", orderRecId := "ord1", sellerId := "sellerA",
        inventoryRecordId := "inv1", offerPrice := some 90 }).2
    0 < tr.countP Event.isDeactivation
    ∧ tr.countP Event.isStatusUpdate = 0 := by
  exact ⟨by decide, rfl⟩

/-- C5, amended: on a winning Confirm click the durable commit the code
actually performs — the Sales-row creation and the inventory decrement
(there is no order-status update in this handler) — occupies positions 0
and 1 of the trace, and every deactivation attempt comes strictly after
both; moreover the committed Airtable state (sales and inventory) is
identical no matter which sibling deactivations fail, so a deactivation
failure never blocks or rolls back the sale. -/
theorem claim_C5_commit_before_deactivate (env : ClickEnv) (st : SysState)
    (ctx : HandlerIn) (f : InvFields)
    (hact : ctx.action = "confirm")
    (hf : st.inventory.lookup ctx.inventoryRecordId = some f) :
    (∀ k e, (handleClick env st ctx).2[k]? = some e → e.isDeactivation = true →
      2 ≤ k
      ∧ (handleClick env st ctx).2[0]? =
          some (Event.saleCreated ctx.orderRecId (ctx.offerPrice.map round2))
      ∧ (handleClick env st ctx).2[1]? =
          some (Event.qtyPatched ctx.inventoryRecordId
            (max 0 (qtyAsNumber f.qty - 1))))
    ∧ (∀ env2 : ClickEnv,
        (handleClick env2 st ctx).1.sales = (handleClick env st ctx).1.sales
        ∧ (handleClick env2 st ctx).1.inventory
            = (handleClick env st ctx).1.inventory) := by
  have hcommit : ∀ envx : ClickEnv, handleClick envx st ctx
      = ((disableBatch envx
            { st with
                sales := st.sales ++
                  [{ orderRecId := ctx.orderRecId,
                     finalPrice := ctx.offerPrice.map round2 }]
                inventory := st.inventory.map fun p =>
                  if p.1 == ctx.inventoryRecordId then
                    (p.1, { qty := CellVal.num (max 0 (qtyAsNumber f.qty - 1)) })
                  else p }
            (listOfferMessagesForOrder st.registry ctx.orderRecId)
            ("✅ Matched by " ++ ctx.sellerId ++ ". Offers closed.")).1,
        [Event.saleCreated ctx.orderRecId (ctx.offerPrice.map round2),
         Event.qtyPatched ctx.inventoryRecordId (max 0 (qtyAsNumber f.qty - 1))]
          ++ (disableBatch envx
            { st with
                sales := st.sales ++
                  [{ orderRecId := ctx.orderRecId,
                     finalPrice := ctx.offerPrice.map round2 }]
                inventory := st.inventory.map fun p =>
                  if p.1 == ctx.inventoryRecordId then
                    (p.1, { qty := CellVal.num (max 0 (qtyAsNumber f.qty - 1)) })
                  else p }
            (listOfferMessagesForOrder st.registry ctx.orderRecId)
            ("✅ Matched by " ++ ctx.sellerId ++ ". Offers closed.")).2) := by
    intro envx
    simp [handleClick, hact, createSaleAndDecrement, hf]
  constructor
  · intro k e hk hde
    rw [hcommit env] at hk ⊢
    simp only [List.cons_append, List.nil_append] at hk ⊢
    match k, hk with
    | 0, hk =>
      have he : e = Event.saleCreated ctx.orderRecId (ctx.offerPrice.map round2) := by
        simpa using hk.symm
      rw [he] at hde
      exact absurd hde (by simp [Event.isDeactivation])
    | 1, hk =>
      have he : e = Event.qtyPatched ctx.inventoryRecordId
          (max 0 (qtyAsNumber f.qty - 1)) := by
        simpa using hk.symm
      rw [he] at hde
      exact absurd hde (by simp [Event.isDeactivation])
    | (n + 2), hk =>
      refine ⟨by omega, ?_, ?_⟩ <;> simp
  · intro env2
    rw [hcommit env, hcommit env2]
    simp only
    constructor
    · rw [(disableBatch_state env _ _ _).1, (disableBatch_state env2 _ _ _).1]
    · rw [(disableBatch_state env _ _ _).2.1, (disableBatch_state env2 _ _ _).2.1]

/-- Closed check of C5's amended statement: a winning Confirm click on a
one-sibling registry, run once with no deactivation failures and once
with every deactivation failing, commits the same sales and inventory
state. -/
theorem claim_C5_commit_before_deactivate_witness :
    (∀ k e, (handleClick { disableFails := fun _ _ => false }
        { sales := [],
          inventory := [("invW", { qty := CellVal.num 3 })],
          registry :=
            [{ orderRecId := some "ordW", channelId := some "chW",
               messageId := some "msgW" }],
          messages :=
            [{ channelId := "chW", messageId := "msgW", active := true,
               note := none }] }
        { action := "confirm", orderRecId := "ordW", sellerId := "sellerW",
          inventoryRecordId := "invW", offerPrice := some 90 }).2[k]? = some e →
      e.isDeactivation = true →
      2 ≤ k
      ∧ (handleClick { disableFails := fun _ _ => false }
          { sales := [],
            inventory := [("invW", { qty := CellVal.num 3 })],
            registry :=
              [{ orderRecId := some "ordW", channelId := some "chW",
                 messageId := some "msgW" }],
            messages :=
              [{ channelId := "chW", messageId := "msgW", active := true,
                 note := none }] }
          { action := "confirm", orderRecId := "ordW", sellerId := "sellerW",
            inventoryRecordId := "invW", offerPrice := some 90 }).2[0]? =
          some (Event.saleCreated "ordW" ((some (90:ℚ)).map round2))
      ∧ (handleClick { disableFails := fun _ _ => false }
          { sales := [],
            inventory := [("invW", { qty := CellVal.num 3 })],
            registry :=
              [{ orderRecId := some "ordW", channelId := some "chW",
                 messageId := some "msgW" }],
            messages :=
              [{ channelId := "chW", messageId := "msgW", active := true,
                 note := none }] }
          { action := "confirm", orderRecId := "ordW", sellerId := "sellerW",
            inventoryRecordId := "invW", offerPrice := some 90 }).2[1]? =
          some (Event.qtyPatched "invW"
            (max 0 (qtyAsNumber (CellVal.num 3) - 1))))
    ∧ (∀ env2 : ClickEnv,
        (handleClick env2
          { sales := [],
            inventory := [("invW", { qty := CellVal.num 3 })],
            registry :=
              [{ orderRecId := some "ordW", channelId := some "chW",
                 messageId := some "msgW" }],
            messages :=
              [{ channelId := "chW", messageId := "msgW", active := true,
                 note := none }] }
          { action := "confirm", orderRecId := "ordW", sellerId := "sellerW",
            inventoryRecordId := "invW", offerPrice := some 90 }).1.sales
          = (handleClick { disableFails := fun _ _ => false }
          { sales := [],
            inventory := [("invW", { qty := CellVal.num 3 })],
            registry :=
              [{ orderRecId := some "ordW", channelId := some "chW",
                 messageId := some "msgW" }],
            messages :=
              [{ channelId := "chW", messageId := "msgW", active := true,
                 note := none }] }
          { action := "confirm", orderRecId := "ordW", sellerId := "sellerW",
            inventoryRecordId := "invW", offerPrice := some 90 }).1.sales
        ∧ (handleClick env2
          { sales := [],
            inventory := [("invW", { qty := CellVal.num 3 })],
            registry :=
              [{ orderRecId := some "ordW", channelId := some "chW",
                 messageId := some "msgW" }],
            messages :=
              [{ channelId := "chW", messageId := "msgW", active := true,
                 note := none }] }
          { action := "confirm", orderRecId := "ordW", sellerId := "sellerW",
            inventoryRecordId := "invW", offerPrice := some 90 }).1.inventory
          = (handleClick { disableFails := fun _ _ => false }
          { sales := [],
            inventory := [("invW", { qty := CellVal.num 3 })],
            registry :=
              [{ orderRecId := some "ordW", channelId := some "chW",
                 messageId := some "msgW" }],
            messages :=
              [{ channelId := "chW", messageId := "msgW", active := true,
                 note := none }] }
          { action := "confirm", orderRecId := "ordW", sellerId := "sellerW",
            inventoryRecordId := "invW", offerPrice := some 90 }).1.inventory) :=
  claim_C5_commit_before_deactivate { disableFails := fun _ _ => false }
    { sales := [],
      inventory := [("invW", { qty := CellVal.num 3 })],
      registry :=
        [{ orderRecId := some "ordW", channelId := some "chW",
           messageId := some "msgW" }],
      messages :=
        [{ channelId := "chW", messageId := "msgW", active := true,
           note := none }] }
    { action := "confirm", orderRecId := "ordW", sellerId := "sellerW",
      inventoryRecordId := "invW", offerPrice := some 90 }
    { qty := CellVal.num 3 } rfl rfl

/-- C1 (the code at the failing input): two sequential Confirm clicks by
distinct sellers on the same order both commit.  The handler in
src/server.js lines 142-160 calls `createSaleAndDecrement`
unconditionally — `hasSaleForOrder` is defined in the source tree but
never invoked, and there is no per-order guard — so the second click
creates a second Sales row and performs a second inventory decrement
instead of taking a deactivate-all path. -/
theorem claim_C1_duplicate_commit :
    let st0 : SysState :=
      { sales := [],
        inventory := [("inv1", { qty := CellVal.num 3 }),
                      ("inv2", { qty := CellVal.num 1 })],
        registry :=
          [{ orderRecId := some "ord1", channelId := some "ch1",
             messageId := some "msg1" },
           { orderRecId := some "ord1", channelId := some "ch2",
             messageId := some "msg2" }],
        messages :=
          [{ channelId := "ch1", messageId := "msg1", active := true, note := none },
           { channelId := "ch2", messageId := "msg2", active := true, note := none }] }
    let env : ClickEnv := { disableFails := fun _ _ => false }
    let r1 := handleClick env st0
      { action := "confirm", orderRecId := "ord1", sellerId := "sellerA",
        inventoryRecordId := "inv1", offerPrice := some 90 }
    let r2 := handleClick env r1.1
      { action := "confirm", orderRecId := "ord1", sellerId := "sellerB",
        inventoryRecordId := "inv2", offerPrice := some 95 }
    st0.sales.length = 0
    ∧ r1.1.sales.length = 1
    ∧ r2.1.sales.length = 2
    ∧ (r1.2 ++ r2.2).countP Event.isSaleCreate = 2
    ∧ (r1.2 ++ r2.2).countP Event.isQtyPatch = 2 :=
  ⟨rfl, rfl, rfl, rfl, rfl⟩

/-- Whether a send outcome is a thrown error. -/
def SendOutcome.isThrow : SendOutcome → Bool
  | SendOutcome.threw _ => true
  | _ => false

/-- C3, counterexample: with two sellers where the Discord send for the
first one throws, the second seller is never attempted — dispatch is
aborted and the endpoint answers with a single 500 error rather than
per-seller success/failure counts. -/
theorem claim_C3_counterexample :
    dispatchOffers
      { send := fun sid =>
          if sid == "s1" then SendOutcome.threw "post failed"
          else SendOutcome.posted "chan" ("msg-" ++ sid) 90 }
      [{ sellerId := "s1" }, { sellerId := "s2" }]
      = (["s1"], DispatchResult.err "post failed")
    ∧ "s2" ∉ (dispatchOffers
      { send := fun sid =>
          if sid == "s1" then SendOutcome.threw "post failed"
          else SendOutcome.posted "chan" ("msg-" ++ sid) 90 }
      [{ sellerId := "s1" }, { sellerId := "s2" }]).1 := by
  constructor
  · rfl
  · intro h
    simp only [dispatchOffers, dispatchGo] at h
    revert h
    decide

/-- C3, amended: a failing send aborts dispatch — sellers before the
first failure are attempted and posted, the failing seller is attempted,
every later seller is skipped, and the response is a single error; only
when every send succeeds are all sellers attempted, with `sentCount`
equal to the number of sellers. -/
theorem claim_C3_failure_aborts (env : DispatchEnv) (pre : List Seller)
    (s : Seller) (post : List Seller) (e : String)
    (hpre : ∀ p ∈ pre, (env.send p.sellerId).isThrow = false)
    (hs : env.send s.sellerId = SendOutcome.threw e) :
    dispatchOffers env (pre ++ s :: post)
      = (pre.map (fun p => p.sellerId) ++ [s.sellerId], DispatchResult.err e)
    ∧ (∀ ss : List Seller,
        (∀ p ∈ ss, (env.send p.sellerId).isThrow = false) →
        ∃ sent, dispatchOffers env ss
            = (ss.map (fun p => p.sellerId), DispatchResult.ok sent)
          ∧ sent.length = ss.length) := by
  have habort : ∀ (pre2 : List Seller) (acc : List (String × String)),
      (∀ p ∈ pre2, (env.send p.sellerId).isThrow = false) →
      dispatchGo env (pre2 ++ s :: post) acc
        = (pre2.map (fun p => p.sellerId) ++ [s.sellerId], DispatchResult.err e) := by
    intro pre2
    induction pre2 with
    | nil =>
      intro acc _
      simp [dispatchGo, hs]
    | cons p rest ih =>
      intro acc hok
      have hpok : (env.send p.sellerId).isThrow = false :=
        hok p (List.mem_cons_self _ _)
      match hsend : env.send p.sellerId with
      | SendOutcome.threw q =>
        rw [hsend] at hpok
        exact absurd hpok (by simp [SendOutcome.isThrow])
      | SendOutcome.posted c mid pr =>
        have hr := ih (acc ++ [(p.sellerId, mid)])
          (fun q hq => hok q (List.mem_cons_of_mem _ hq))
        simp [dispatchGo, hsend, hr]
  have hok : ∀ (ss : List Seller) (acc : List (String × String)),
      (∀ p ∈ ss, (env.send p.sellerId).isThrow = false) →
      ∃ sent, dispatchGo env ss acc
          = (ss.map (fun p => p.sellerId), DispatchResult.ok sent)
        ∧ sent.length = acc.length + ss.length := by
    intro ss
    induction ss with
    | nil =>
      intro acc _
      exact ⟨acc, rfl, by simp⟩
    | cons p rest ih =>
      intro acc hall
      have hpok : (env.send p.sellerId).isThrow = false :=
        hall p (List.mem_cons_self _ _)
      match hsend : env.send p.sellerId with
      | SendOutcome.threw q =>
        rw [hsend] at hpok
        exact absurd hpok (by simp [SendOutcome.isThrow])
      | SendOutcome.posted c mid pr =>
        obtain ⟨sent, hgo, hlen⟩ := ih (acc ++ [(p.sellerId, mid)])
          (fun q hq => hall q (List.mem_cons_of_mem _ hq))
        refine ⟨sent, ?_, ?_⟩
        · simp [dispatchGo, hsend, hgo]
        · rw [hlen]
          simp only [List.length_append, List.length_cons, List.length_nil]
          omega
  refine ⟨habort pre [] hpre, ?_⟩
  intro ss hall
  obtain ⟨sent, hgo, hlen⟩ := hok ss [] hall
  exact ⟨sent, hgo, by simpa using hlen⟩

/-- Closed check of C3's amended statement: seller g1 succeeds, seller
bad throws, seller g2 is skipped; on an all-success list both sellers
are attempted and sentCount is 2. -/
theorem claim_C3_failure_aborts_witness :
    dispatchOffers
      { send := fun sid =>
          if sid == "bad" then SendOutcome.threw "boom"
          else SendOutcome.posted "chan" ("msg-" ++ sid) 80 }
      ([{ sellerId := "g1" }] ++ { sellerId := "bad" } :: [{ sellerId := "g2" }])
      = (["g1", "bad"], DispatchResult.err "boom")
    ∧ (∀ ss : List Seller,
        (∀ p ∈ ss, (SendOutcome.isThrow
          (if p.sellerId == "bad" then SendOutcome.threw "boom"
           else SendOutcome.posted "chan" ("msg-" ++ p.sellerId) 80)) = false) →
        ∃ sent, dispatchOffers
            { send := fun sid =>
                if sid == "bad" then SendOutcome.threw "boom"
                else SendOutcome.posted "chan" ("msg-" ++ sid) 80 } ss
            = (ss.map (fun p => p.sellerId), DispatchResult.ok sent)
          ∧ sent.length = ss.length) :=
  claim_C3_failure_aborts
    { send := fun sid =>
        if sid == "bad" then SendOutcome.threw "boom"
        else SendOutcome.posted "chan" ("msg-" ++ sid) 80 }
    [{ sellerId := "g1" }] { sellerId := "bad" } [{ sellerId := "g2" }] "boom"
    (by decide) rfl
